import Mathlib

/-!
Shallow embedding of `ampligraph/utils/model_utils.py`.

The module persists/restores knowledge-graph embedding models and exports
trained embeddings to TensorBoard file formats.  Python objects stored in the
pickled record are dynamically typed; we embed them as the inductive `PValue`.
The filesystem is modelled explicitly as a list of directories and a list of
files, so that the file I/O each function performs (and its order relative to
the precondition checks) is visible in the embedding.  Exceptions are embedded
as an `Option String` / `Except String` component of the result: `some msg`
(resp. `.error msg`) means the Python call raised with that message.
Floating-point embedding values are abstracted by `Int` entries; no claim
inspects numeric values.
-/

/-- A dynamically typed Python value, as stored in model attributes and in the
pickled model record.  `arr` stands for a 2-D numpy array (float entries
abstracted by `Int`). -/
inductive PValue where
  | str : String → PValue
  | bool : Bool → PValue
  | int : Int → PValue
  | list : List PValue → PValue
  | dict : List (String × PValue) → PValue
  | arr : List (List Int) → PValue

/-- Python truthiness (`if x:`).  numpy-array truthiness is never used by this
module; the `arr` case follows emptiness like the other containers. -/
def PValue.truthy : PValue → Bool
  | .str s => !(s == "")
  | .bool b => b
  | .int n => !(n == 0)
  | .list l => !l.isEmpty
  | .dict d => !d.isEmpty
  | .arr a => !a.isEmpty

/-- Python `len(x)`: `none` models a `TypeError` for objects without a length. -/
def PValue.pyLen : PValue → Option Nat
  | .str s => some s.length
  | .list l => some l.length
  | .dict d => some d.length
  | .arr a => some a.length
  | _ => none

/-- Python `x[i]` for a non-negative index.  In this module indexing is applied
only to `model.trained_model_params`, a list of parameter arrays; `none` models
the `TypeError`/`IndexError` raised otherwise. -/
def PValue.pyIndex (v : PValue) (i : Nat) : Option PValue :=
  match v with
  | .list l => l.get? i
  | _ => none

/-- Python `d[k]` on a dict: `KeyError` when the key is absent. -/
def dictLookup (k : String) (d : List (String × PValue)) : Except String PValue :=
  match d.find? (fun e => e.1 == k) with
  | some e => Except.ok e.2
  | none => Except.error ("KeyError: " ++ k)

/-- The slice of an `EmbeddingModel` instance's state that
`model_utils.py` reads and writes.  `class_name` is `model.__class__.__name__`
(always a string in Python); the remaining attributes are dynamically typed. -/
structure Model where
  class_name : String
  all_params : PValue
  is_fitted : PValue
  ent_to_idx : PValue
  rel_to_idx : PValue
  trained_model_params : PValue

/-- Content of a file on disk.  `pickled` is a pickled dict (the only thing
this module pickles); `text` is plain text; the TensorBoard checkpoint and
projector-config formats are opaque to this module (spec §6), as is the
`np.savetxt` rendering of the embedding matrix. -/
inductive FileData where
  | pickled : List (String × PValue) → FileData
  | text : String → FileData
  | npSavetxt : PValue → FileData
  | tfCheckpoint : PValue → FileData
  | tfOpaque : FileData
  | projectorConfig : String → String → FileData

/-- The local filesystem: existing directories and files (path, content).
The working directory is the empty path; paths use `/` separators. -/
structure FS where
  dirs : List String
  files : List (String × FileData)

/-- Writing a file (Python `open(p, 'w'/'wb')` followed by a full write):
replaces any previous content at that path. -/
def FS.writeFile (fs : FS) (p : String) (d : FileData) : FS :=
  { fs with files := (p, d) :: fs.files.filter (fun f => !(f.1 == p)) }

/-- Reading a file: `none` models `FileNotFoundError`. -/
def FS.readFile (fs : FS) (p : String) : Option FileData :=
  (fs.files.find? (fun f => f.1 == p)).map Prod.snd

/-- `os.path.join(a, b)` for the shapes this module produces. -/
def pathJoin (a b : String) : String :=
  if a == "" then b else a ++ "/" ++ b

/-- `os.path.dirname(p)`: everything before the final separator (empty when
there is none). -/
def dirname (p : String) : String :=
  String.intercalate "/" (p.splitOn "/").dropLast

/-- `DEFAULT_MODEL_NAMES = "\x7b0\x7d.model.pkl"` applied to the
`strftime("%Y_%m_%d-%H_%M_%S", gmtime())` timestamp. -/
def DEFAULT_MODEL_NAMES (timestamp : String) : String :=
  timestamp ++ ".model.pkl"

/-- Modelled from the spec: `model.get_embedding_model_params(obj)` is defined
by the model classes, which are not part of this module's sources.  Per spec §3
the persisted record gains the "model-specific trained parameters (opaque,
supplied by the model itself)": the model adds its trained parameters to the
record under its own key. -/
def get_embedding_model_params (model : Model) (obj : List (String × PValue)) :
    List (String × PValue) :=
  obj ++ [("model_params", model.trained_model_params)]

/-- The record `obj` that `save_model` builds and pickles: the five fields put
in by `save_model` itself, then the entries contributed by
`model.get_embedding_model_params(obj)`. -/
def save_model_record (model : Model) : List (String × PValue) :=
  get_embedding_model_params model
    [("class_name", PValue.str model.class_name),
     ("hyperparams", model.all_params),
     ("is_fitted", model.is_fitted),
     ("ent_to_idx", model.ent_to_idx),
     ("rel_to_idx", model.rel_to_idx)]

/-- `save_model(model, model_name_path=None)`.  `timestamp` stands for the
`strftime` result used when no path is supplied.  The function performs no
precondition check and raises nothing: it builds the record and writes it. -/
def save_model (model : Model) (model_name_path : Option String)
    (timestamp : String) (fs : FS) : FS :=
  let obj := save_model_record model
  let path :=
    match model_name_path with
    | none => DEFAULT_MODEL_NAMES timestamp
    | some p => p
  fs.writeFile path (FileData.pickled obj)

/-- `glob.glob("*.model.pkl")`: files of the working directory (no separator in
the name) matching the default-model pattern. -/
def glob_default_models (fs : FS) : List String :=
  (fs.files.map Prod.fst).filter
    (fun n => n.endsWith ".model.pkl" && !(n.contains '/'))

/-- `pickle.load` on raw file content: anything this module wrote other than a
pickled record fails to unpickle. -/
def pickle_load : FileData → Except String (List (String × PValue))
  | FileData.pickled obj => Except.ok obj
  | _ => Except.error "UnpicklingError"

/-- Modelled from the spec: the dynamic class lookup
`getattr(importlib.import_module("ampligraph.latent_features.models"), class_name)`
followed by `class_(**hyperparams)`.  The model classes are not part of this
module's sources; per spec §3 the record "must match the constructor signature
of the named class", and per spec §2 restoring "reconstructs a model instance
via dynamic class lookup".  The constructed instance carries the given class
name and hyperparameters and is otherwise in its fresh, unfitted state. -/
def mkModelFromClass (class_name : String) (hyperparams : PValue) : Model :=
  { class_name := class_name
    all_params := hyperparams
    is_fitted := PValue.bool false
    ent_to_idx := PValue.dict []
    rel_to_idx := PValue.dict []
    trained_model_params := PValue.list [] }

/-- Modelled from the spec: `model.restore_model_params(restored_obj)` is
defined by the model classes, which are not part of this module's sources.
It repopulates the model's trained parameters from the entries that
`get_embedding_model_params` contributed to the record (spec §2: the restore
path "repopulates its state"; spec §3: the trained parameters are opaque and
supplied by the model itself). -/
def restore_model_params (model : Model) (in_dict : List (String × PValue)) :
    Except String Model :=
  match dictLookup "model_params" in_dict with
  | Except.error e => Except.error e
  | Except.ok mp => Except.ok { model with trained_model_params := mp }

/-- `restore_model(model_name_path=None)`.  With no path it globs for a
default model file and raises when none exists, otherwise it takes the last
match.  It unpickles the file; a falsy record (`if restored_obj:` fails, e.g.
an empty dict) leaves `model = None`, which is returned without error.
Otherwise it reconstructs the instance and repopulates its state.  (The raise
message in the source spreads over a backslash-continued line; the inner
whitespace is normalised here.) -/
def restore_model (model_name_path : Option String) (fs : FS) :
    Except String (Option Model) :=
  let resolved : Except String String :=
    match model_name_path with
    | some p => Except.ok p
    | none =>
      let default_models := glob_default_models fs
      if default_models.length = 0 then
        Except.error "No default model found. Please specify model_name_path..."
      else
        Except.ok (default_models.getD (default_models.length - 1) "")
  match resolved with
  | Except.error e => Except.error e
  | Except.ok path =>
    match fs.readFile path with
    | none => Except.error ("FileNotFoundError: " ++ path)
    | some fd =>
      match pickle_load fd with
      | Except.error e => Except.error e
      | Except.ok restored_obj =>
        if restored_obj.isEmpty then
          -- `if restored_obj:` is false: `model` stays `None` and is returned.
          Except.ok none
        else
          match dictLookup "class_name" restored_obj with
          | Except.error e => Except.error e
          | Except.ok (PValue.str class_name) =>
            match dictLookup "hyperparams" restored_obj with
            | Except.error e => Except.error e
            | Except.ok hyperparams =>
              let model := mkModelFromClass class_name hyperparams
              match dictLookup "is_fitted" restored_obj,
                    dictLookup "ent_to_idx" restored_obj,
                    dictLookup "rel_to_idx" restored_obj with
              | Except.ok isf, Except.ok ent, Except.ok rel =>
                restore_model_params
                  { model with is_fitted := isf, ent_to_idx := ent,
                               rel_to_idx := rel }
                  restored_obj |>.map some
              | Except.error e, _, _ => Except.error e
              | _, Except.error e, _ => Except.error e
              | _, _, Except.error e => Except.error e
          | Except.ok _ =>
            -- `getattr` with a non-string attribute name.
            Except.error "TypeError: attribute name must be string"

/-- A pandas DataFrame as this module consumes it: named columns and rows of
(stringly rendered) cells. -/
structure DataFrame where
  columns : List String
  rows : List (List String)

/-- `df.to_csv(path, sep='\t', index=False)`: pandas writes the header row by
default (`header=True`), then one tab-separated line per row. -/
def DataFrame.to_csv_tsv (df : DataFrame) : String :=
  String.intercalate "\t" df.columns ++ "\n"
    ++ String.join (df.rows.map (fun r => String.intercalate "\t" r ++ "\n"))

/-- The argument `data` of `write_metadata_tsv`: a list of labels, a DataFrame,
or any other Python object (`other`). -/
inductive PyData where
  | list : List String → PyData
  | frame : DataFrame → PyData
  | other : PValue → PyData

/-- `write_metadata_tsv(loc, data)`: writes `loc/metadata.tsv` from a list
(`'%s\n' % row` per element) or a DataFrame (`to_csv` with tab separator and
no index); any other type falls through both `isinstance` branches and nothing
is written. -/
def write_metadata_tsv (loc : String) (data : PyData) (fs : FS) : FS :=
  let metadata_path := pathJoin loc "metadata.tsv"
  match data with
  | PyData.list rows =>
    fs.writeFile metadata_path
      (FileData.text (String.join (rows.map (fun row => row ++ "\n"))))
  | PyData.frame df =>
    fs.writeFile metadata_path (FileData.text df.to_csv_tsv)
  | PyData.other _ => fs

/-- The `labels` argument of the two export functions: a list of labels or a
DataFrame (`None` is embedded as the surrounding `Option`). -/
inductive Labels where
  | list : List String → Labels
  | frame : DataFrame → Labels

/-- Python `len(labels)`. -/
def Labels.len : Labels → Nat
  | .list l => l.length
  | .frame df => df.rows.length

def Labels.toData : Labels → PyData
  | .list l => PyData.list l
  | .frame df => PyData.frame df

/-- Shared label resolution of both export functions: with no labels supplied,
`list(model.ent_to_idx.keys())`; with labels supplied, raise unless
`len(labels) == len(model.ent_to_idx)`. -/
def resolve_labels (model : Model) (labels : Option Labels) :
    Except String Labels :=
  match labels with
  | none =>
    match model.ent_to_idx with
    | PValue.dict d => Except.ok (Labels.list (d.map Prod.fst))
    | _ => Except.error "AttributeError: keys"
  | some ls =>
    match model.ent_to_idx.pyLen with
    | none => Except.error "TypeError: object has no len()"
    | some n =>
      if ls.len ≠ n then
        Except.error "Label data rows must equal number of embeddings."
      else
        Except.ok ls

/-- `create_tensorboard_visualizations(model, loc, labels=None,
write_metadata=True, export_tsv_embeddings=True)`.  The result's second
component is `some msg` when the call raises; the first component is the
filesystem as left behind, raise or not.  Note the source creates `loc`
(when missing) before checking `model.is_fitted`. -/
def create_tensorboard_visualizations (model : Model) (loc : String)
    (labels : Option Labels) (write_metadata : Bool)
    (export_tsv_embeddings : Bool) (fs : FS) : FS × Option String :=
  -- `if not os.path.exists(loc): os.mkdir(loc)`
  let fs1 := if fs.dirs.contains loc then fs else { fs with dirs := loc :: fs.dirs }
  if model.is_fitted.truthy = false then
    (fs1, some "Cannot write embeddings if model is not fitted.")
  else
    match resolve_labels model labels with
    | Except.error e => (fs1, some e)
    | Except.ok ls =>
      let fs2 := if write_metadata then write_metadata_tsv loc ls.toData fs1 else fs1
      let exported : FS × Option String :=
        if export_tsv_embeddings then
          match model.trained_model_params.pyIndex 0 with
          | none => (fs2, some "IndexError: trained_model_params")
          | some emb =>
            (fs2.writeFile (pathJoin loc "embeddings_projector.tsv")
              (FileData.npSavetxt emb), none)
        else
          (fs2, none)
      match exported with
      | (fs3, some e) => (fs3, some e)
      | (fs3, none) =>
        -- `tf.Variable(model.trained_model_params[0], ...)`, then the
        -- checkpoint files of `saver.save` and the projector config of
        -- `projector.visualize_embeddings`.
        match model.trained_model_params.pyIndex 0 with
        | none => (fs3, some "IndexError: trained_model_params")
        | some emb =>
          (fs3.writeFile (pathJoin loc "checkpoint") FileData.tfOpaque
             |>.writeFile (pathJoin loc "graph_embedding.ckpt.data-00000-of-00001")
                  (FileData.tfCheckpoint emb)
             |>.writeFile (pathJoin loc "graph_embedding.ckpt.index") FileData.tfOpaque
             |>.writeFile (pathJoin loc "graph_embedding.ckpt.meta") FileData.tfOpaque
             |>.writeFile (pathJoin loc "projector_config.pbtxt")
                  (FileData.projectorConfig "graph_embedding" "metadata.tsv"),
           none)

/-- `create_tensorboard_projector_files(model, path, labels=None,
write_metadata=True)`.  No directory is created here; metadata goes next to
`path` (its `os.path.dirname`), then the embeddings tsv is written at `path`. -/
def create_tensorboard_projector_files (model : Model) (path : String)
    (labels : Option Labels) (write_metadata : Bool) (fs : FS) :
    FS × Option String :=
  if model.is_fitted.truthy = false then
    (fs, some "Cannot write embeddings if model is not fitted.")
  else
    match resolve_labels model labels with
    | Except.error e => (fs, some e)
    | Except.ok ls =>
      let loc := dirname path
      let fs1 := if write_metadata then write_metadata_tsv loc ls.toData fs else fs
      match model.trained_model_params.pyIndex 0 with
      | none => (fs1, some "IndexError: trained_model_params")
      | some emb =>
        (fs1.writeFile path (FileData.npSavetxt emb), none)

/-! Concrete values used by witnesses and counterexamples. -/

/-- An empty working directory. -/
def emptyFS : FS := { dirs := [], files := [] }

/-- A fitted model over two entities and one relation. -/
def fittedModel : Model :=
  { class_name := "ComplEx"
    all_params := PValue.dict [("k", PValue.int 10)]
    is_fitted := PValue.bool true
    ent_to_idx := PValue.dict [("a", PValue.int 0), ("b", PValue.int 1)]
    rel_to_idx := PValue.dict [("y", PValue.int 0)]
    trained_model_params := PValue.list [PValue.arr [[1, 2], [3, 4]]] }

/-- A freshly constructed, unfitted model. -/
def unfittedModel : Model :=
  { class_name := "ComplEx"
    all_params := PValue.dict []
    is_fitted := PValue.bool false
    ent_to_idx := PValue.dict [("a", PValue.int 0)]
    rel_to_idx := PValue.dict []
    trained_model_params := PValue.list [] }

/-- A DataFrame with a single column and a single row. -/
def singleColDF : DataFrame := { columns := ["label"], rows := [["a"]] }

/-- A working directory holding one default-named model file whose pickled
record is an empty (hence falsy) dict. -/
def falsyRecordFS : FS :=
  { dirs := [], files := [("empty.model.pkl", FileData.pickled [])] }

/-- Reading back the path just written returns the written content. -/
theorem FS.readFile_writeFile (fs : FS) (p : String) (d : FileData) :
    (fs.writeFile p d).readFile p = some d := by
  simp [FS.writeFile, FS.readFile]

/-- C1: saving a model with `save_model` and then calling `restore_model` on
the same file path yields a model whose entire state — class name,
hyperparameters, `is_fitted` flag, `ent_to_idx`, `rel_to_idx` and trained
model parameters — equals the saved model's, so any prediction function of
that state produces identical predictions on the same inputs. -/
theorem C1_save_then_restore_roundtrip (m : Model) (p timestamp : String)
    (fs : FS) :
    restore_model (some p) (save_model m (some p) timestamp fs)
      = Except.ok (some m) := by
  simp [save_model, restore_model, FS.readFile_writeFile, pickle_load,
        save_model_record, get_embedding_model_params, dictLookup, List.find?,
        restore_model_params, mkModelFromClass, Except.map]

/-- C2: on a fitted model, explicitly supplying labels whose length differs
from the number of entries of `ent_to_idx` makes both
`create_tensorboard_visualizations` and `create_tensorboard_projector_files`
raise `ValueError('Label data rows must equal number of embeddings.')`. -/
theorem C2_label_count_mismatch_raises (m : Model) (d : List (String × PValue))
    (ls : Labels) (hf : m.is_fitted.truthy = true)
    (he : m.ent_to_idx = PValue.dict d) (hl : ls.len ≠ d.length)
    (loc path : String) (wm ex : Bool) (fs : FS) :
    (create_tensorboard_visualizations m loc (some ls) wm ex fs).2
        = some "Label data rows must equal number of embeddings."
  ∧ (create_tensorboard_projector_files m path (some ls) wm fs).2
        = some "Label data rows must equal number of embeddings." := by
  simp [create_tensorboard_visualizations, create_tensorboard_projector_files,
        resolve_labels, he, hf, PValue.pyLen, hl]

/-- Witness for C2: a fitted model with two entities and a one-element label
list. -/
theorem C2_label_count_mismatch_raises_witness :
    fittedModel.is_fitted.truthy = true
  ∧ (Labels.list ["x"]).len ≠ 2
  ∧ (create_tensorboard_visualizations fittedModel "tb"
        (some (Labels.list ["x"])) true true emptyFS).2
        = some "Label data rows must equal number of embeddings."
  ∧ (create_tensorboard_projector_files fittedModel "out/embeddings.tsv"
        (some (Labels.list ["x"])) true emptyFS).2
        = some "Label data rows must equal number of embeddings." :=
  ⟨rfl, by decide,
   (C2_label_count_mismatch_raises fittedModel
      [("a", PValue.int 0), ("b", PValue.int 1)] (Labels.list ["x"])
      rfl rfl (by decide) "tb" "out/embeddings.tsv" true true emptyFS).1,
   (C2_label_count_mismatch_raises fittedModel
      [("a", PValue.int 0), ("b", PValue.int 1)] (Labels.list ["x"])
      rfl rfl (by decide) "tb" "out/embeddings.tsv" true true emptyFS).2⟩

/-- C3: on an unfitted model, both export functions raise
`ValueError('Cannot write embeddings if model is not fitted.')` and write no
file at all: `create_tensorboard_visualizations` leaves the file list
untouched, and `create_tensorboard_projector_files` leaves the whole
filesystem untouched. -/
theorem C3_unfitted_export_raises_writes_no_files (m : Model)
    (hf : m.is_fitted = PValue.bool false) (loc path : String)
    (labels : Option Labels) (wm ex : Bool) (fs : FS) :
    (create_tensorboard_visualizations m loc labels wm ex fs).2
        = some "Cannot write embeddings if model is not fitted."
  ∧ (create_tensorboard_visualizations m loc labels wm ex fs).1.files = fs.files
  ∧ (create_tensorboard_projector_files m path labels wm fs)
        = (fs, some "Cannot write embeddings if model is not fitted.") := by
  simp [create_tensorboard_visualizations, create_tensorboard_projector_files,
        hf, PValue.truthy, apply_ite]

/-- Witness for C3: the concrete unfitted model on an empty filesystem. -/
theorem C3_unfitted_export_raises_writes_no_files_witness :
    unfittedModel.is_fitted = PValue.bool false
  ∧ (create_tensorboard_visualizations unfittedModel "tb" none true true
        emptyFS).2 = some "Cannot write embeddings if model is not fitted."
  ∧ (create_tensorboard_projector_files unfittedModel "emb.tsv" none true
        emptyFS)
        = (emptyFS, some "Cannot write embeddings if model is not fitted.") :=
  ⟨rfl,
   (C3_unfitted_export_raises_writes_no_files unfittedModel rfl "tb" "emb.tsv"
      none true true emptyFS).1,
   (C3_unfitted_export_raises_writes_no_files unfittedModel rfl "tb" "emb.tsv"
      none true true emptyFS).2.2⟩

/-- C4 counterexample: for a single-column DataFrame the claim predicts a
headerless `metadata.tsv` (here just `"a\n"`), but `to_csv` writes the header
by default regardless of column count, so the file reads `"label\na\n"`. -/
theorem C4_single_column_header_counterexample :
    (write_metadata_tsv "d" (PyData.frame singleColDF) emptyFS).readFile
        "d/metadata.tsv" = some (FileData.text "label\na\n")
  ∧ "label\na\n" ≠ "a\n" :=
  ⟨rfl, by decide⟩

/-- C4 (amended): `write_metadata_tsv` writes `metadata.tsv` next to `loc`
with, for a list of labels, exactly one line per label in order and no header;
for DataFrame input it always writes the tab-separated header row of column
names first — regardless of the number of columns — followed by one
tab-separated line per row. -/
theorem C4_metadata_content_amended (loc : String) (fs : FS)
    (rows : List String) (df : DataFrame) :
    (write_metadata_tsv loc (PyData.list rows) fs).readFile
        (pathJoin loc "metadata.tsv")
        = some (FileData.text (String.join (rows.map (fun row => row ++ "\n"))))
  ∧ (write_metadata_tsv loc (PyData.frame df) fs).readFile
        (pathJoin loc "metadata.tsv")
        = some (FileData.text (String.intercalate "\t" df.columns ++ "\n"
            ++ String.join (df.rows.map
                 (fun r => String.intercalate "\t" r ++ "\n")))) :=
  ⟨by simp [write_metadata_tsv, FS.readFile_writeFile],
   by simp [write_metadata_tsv, FS.readFile_writeFile, DataFrame.to_csv_tsv]⟩

/-- C5: `restore_model` called without a model path, on a working directory
with no file matching `*.model.pkl`, raises immediately with a descriptive
message instead of returning a model or retrying. -/
theorem C5_no_default_model_raises (fs : FS)
    (h : glob_default_models fs = []) :
    restore_model none fs
      = Except.error "No default model found. Please specify model_name_path..." := by
  simp [restore_model, h]

/-- Witness for C5: the empty working directory. -/
theorem C5_no_default_model_raises_witness :
    glob_default_models emptyFS = []
  ∧ restore_model none emptyFS
      = Except.error "No default model found. Please specify model_name_path..." :=
  ⟨rfl, C5_no_default_model_raises emptyFS rfl⟩

/-- C6: the record `save_model` pickles is a mapping with exactly the keys
`class_name` (the model's class name as a string), `hyperparams` (the
hyperparameter mapping `all_params`), `is_fitted` (the fitted flag),
`ent_to_idx`, `rel_to_idx`, and the model-contributed trained parameters under
`model_params`, each holding the corresponding model attribute. -/
theorem C6_persisted_record_fields (m : Model) :
    (save_model_record m).map Prod.fst
        = ["class_name", "hyperparams", "is_fitted", "ent_to_idx",
           "rel_to_idx", "model_params"]
  ∧ dictLookup "class_name" (save_model_record m)
        = Except.ok (PValue.str m.class_name)
  ∧ dictLookup "hyperparams" (save_model_record m) = Except.ok m.all_params
  ∧ dictLookup "is_fitted" (save_model_record m) = Except.ok m.is_fitted
  ∧ dictLookup "ent_to_idx" (save_model_record m) = Except.ok m.ent_to_idx
  ∧ dictLookup "rel_to_idx" (save_model_record m) = Except.ok m.rel_to_idx
  ∧ dictLookup "model_params" (save_model_record m)
        = Except.ok m.trained_model_params := by
  refine ⟨?_, ?_, ?_, ?_, ?_, ?_, ?_⟩ <;>
    simp [save_model_record, get_embedding_model_params, dictLookup,
          List.find?]

/-- C7 counterexample: calling `create_tensorboard_visualizations` on an
unfitted model with a non-existing output directory raises, yet the directory
has been created by the failed call — the filesystem is not left unchanged,
because the `os.mkdir` precedes the fitted-model precondition check. -/
theorem C7_mkdir_before_validation_counterexample :
    (create_tensorboard_visualizations unfittedModel "tensorboard_files" none
        true true emptyFS).2.isSome = true
  ∧ (create_tensorboard_visualizations unfittedModel "tensorboard_files" none
        true true emptyFS).1.dirs ≠ emptyFS.dirs := by
  constructor
  · rfl
  · intro h
    simp [create_tensorboard_visualizations, unfittedModel, PValue.truthy,
          emptyFS] at h

/-- C7 (amended): `create_tensorboard_visualizations` creates the output
directory (when missing) before validating that the model is fitted; on an
unfitted model the call still raises before any file is written, so the file
list is unchanged, but a missing output directory has already been created. -/
theorem C7_unfitted_call_raises_after_mkdir (m : Model)
    (hf : m.is_fitted = PValue.bool false) (loc : String)
    (labels : Option Labels) (wm ex : Bool) (fs : FS) :
    (create_tensorboard_visualizations m loc labels wm ex fs).2
        = some "Cannot write embeddings if model is not fitted."
  ∧ (create_tensorboard_visualizations m loc labels wm ex fs).1.files = fs.files
  ∧ (create_tensorboard_visualizations m loc labels wm ex fs).1.dirs
        = (if fs.dirs.contains loc then fs.dirs else loc :: fs.dirs) := by
  simp [create_tensorboard_visualizations, hf, PValue.truthy, apply_ite]

/-- Witness for C7 (amended): the unfitted model, a missing directory. -/
theorem C7_unfitted_call_raises_after_mkdir_witness :
    unfittedModel.is_fitted = PValue.bool false
  ∧ (create_tensorboard_visualizations unfittedModel "viz" none true true
        emptyFS).1.dirs
        = (if emptyFS.dirs.contains "viz" then emptyFS.dirs
           else "viz" :: emptyFS.dirs) :=
  ⟨rfl,
   (C7_unfitted_call_raises_after_mkdir unfittedModel rfl "viz" none true true
      emptyFS).2.2⟩

/-- C8: `write_metadata_tsv` on data that is neither a list nor a DataFrame
falls through both `isinstance` branches: it returns with the filesystem
unchanged — no file written — and without raising. -/
theorem C8_unsupported_type_silent_noop (loc : String) (v : PValue) (fs : FS) :
    write_metadata_tsv loc (PyData.other v) fs = fs := rfl

/-- C9: when the unpickled object is falsy (an empty dict), the
`if restored_obj:` guard fails, so `restore_model` returns `None` without
raising. -/
theorem C9_falsy_record_returns_none (p : String) (fs : FS)
    (h : fs.readFile p = some (FileData.pickled [])) :
    restore_model (some p) fs = Except.ok none := by
  simp [restore_model, h, pickle_load]

/-- Witness for C9: a model file whose pickled record is the empty dict. -/
theorem C9_falsy_record_returns_none_witness :
    falsyRecordFS.readFile "empty.model.pkl" = some (FileData.pickled [])
  ∧ restore_model (some "empty.model.pkl") falsyRecordFS = Except.ok none :=
  ⟨rfl, C9_falsy_record_returns_none "empty.model.pkl" falsyRecordFS rfl⟩

/-- C10: `save_model` has no fitted-model precondition: for every model —
whatever its `is_fitted` attribute — it writes the pickled record to the given
path (or to the timestamped default name when no path is given) and the record
stores the model's `is_fitted` flag as-is; its embedding is a total function
into `FS`, raising no unfitted-model error. -/
theorem C10_save_has_no_fitted_precondition (m : Model) (p timestamp : String)
    (fs : FS) :
    (save_model m (some p) timestamp fs).readFile p
        = some (FileData.pickled (save_model_record m))
  ∧ (save_model m none timestamp fs).readFile (DEFAULT_MODEL_NAMES timestamp)
        = some (FileData.pickled (save_model_record m))
  ∧ dictLookup "is_fitted" (save_model_record m) = Except.ok m.is_fitted := by
  refine ⟨?_, ?_, ?_⟩ <;>
    simp [save_model, FS.readFile_writeFile, save_model_record,
          get_embedding_model_params, dictLookup, List.find?]
